import Mathlib

/-!
Shallow embedding of `networkx/algorithms/tree/recognition.py`.

The source file implements four predicates over a graph instance:
`is_forest`, `is_tree`, `is_branching`, `is_arborescence`.  The graph data
structure itself and the connectivity collaborators
(`nx.is_connected`, `nx.is_weakly_connected`,
`nx.connected_component_subgraphs`, `nx.weakly_connected_component_subgraphs`,
`G.in_degree`) live elsewhere in the repository and are modelled from the
spec, as marked on each definition.  Python exceptions are modelled with
`Except`.
-/

set_option autoImplicit false

/-- A graph instance: the nodes are the natural numbers below `numNodes`,
the edges are a list of ordered pairs (parallel edges and self-loops are
allowed, each list entry counts as one edge), plus a directedness flag.
For a directed graph the pair `(u, v)` is the edge `u → v`; for an
undirected graph it records one orientation of an undirected edge. -/
structure Graph where
  numNodes : Nat
  edges : List (Nat × Nat)
  directed : Bool
deriving DecidableEq, Repr

/-- Wellformedness invariant of a graph instance: every edge endpoint is a
node.  The graph library guarantees this (adding an edge adds its
endpoints as nodes). -/
def Graph.WF (g : Graph) : Prop :=
  ∀ e ∈ g.edges, e.1 < g.numNodes ∧ e.2 < g.numNodes

instance (g : Graph) : Decidable g.WF := by
  unfold Graph.WF; infer_instance

/-- Source `G.number_of_nodes()`. -/
def Graph.number_of_nodes (g : Graph) : Nat := g.numNodes

/-- Source `G.number_of_edges()`: parallel edges and self-loops each count
once. -/
def Graph.number_of_edges (g : Graph) : Nat := g.edges.length

/-- Adjacency in the underlying undirected structure: some edge joins `u`
and `v`, in either orientation. -/
def Graph.adjB (g : Graph) (u v : Nat) : Bool :=
  g.edges.any fun e => (e.1 == u && e.2 == v) || (e.1 == v && e.2 == u)

/-- Bounded search for a walk in the underlying undirected structure:
`reachK g k u v` is true iff there is a walk of at most `k` edges from `u`
to `v` all of whose vertices after `u` are nodes of `g`. -/
def Graph.reachK (g : Graph) : Nat → Nat → Nat → Bool
  | 0, u, v => u == v
  | k + 1, u, v =>
      u == v || (List.range g.numNodes).any fun w => g.adjB u w && g.reachK k w v

/-- `u` and `v` are joined by a walk in the underlying undirected
structure.  Fuel `g.numNodes` suffices: a shortest walk visits no vertex
twice, so it has fewer than `g.numNodes` edges. -/
def Graph.reachableB (g : Graph) (u v : Nat) : Bool :=
  g.reachK g.numNodes u v

/-- Modelled from the spec: the external collaborator `nx.is_connected`
(`IsConnected()` in the spec's interface list, not part of src/): every
pair of nodes is joined by a path. -/
def nx_is_connected (g : Graph) : Bool :=
  (List.range g.numNodes).all fun u =>
    (List.range g.numNodes).all fun v => g.reachableB u v

/-- Modelled from the spec: the external collaborator
`nx.is_weakly_connected` (`IsWeaklyConnected()`, not part of src/): weak
connectivity is connectivity of the underlying undirected structure, and
`Graph.adjB` already ignores edge direction. -/
def nx_is_weakly_connected (g : Graph) : Bool := nx_is_connected g

/-- A component subgraph view: all this core reads off a component is its
node count and its edge count. -/
structure CompView where
  nodeCount : Nat
  edgeCount : Nat
deriving DecidableEq, Repr

/-- The nodes of the connected component of `u` (in the underlying
undirected structure), listed in increasing order. -/
def Graph.compOf (g : Graph) (u : Nat) : List Nat :=
  (List.range g.numNodes).filter fun v => g.reachableB u v

/-- The edges of `g` with both endpoints in the node set `s` (the edges of
the induced subgraph view on `s`). -/
def Graph.edgesIn (g : Graph) (s : List Nat) : List (Nat × Nat) :=
  g.edges.filter fun e => decide (e.1 ∈ s ∧ e.2 ∈ s)

/-- One representative node per connected component: the least node of the
component (the head of its sorted node list). -/
def Graph.reps (g : Graph) : List Nat :=
  (List.range g.numNodes).filter fun u => decide ((g.compOf u).head? = some u)

/-- Modelled from the spec: the decomposition of the graph into connected
components of its underlying undirected structure, each component given as
a subgraph view exposing its node count and edge count. -/
def Graph.componentViews (g : Graph) : List CompView :=
  g.reps.map fun u => ⟨(g.compOf u).length, (g.edgesIn (g.compOf u)).length⟩

/-- Modelled from the spec: the external collaborator
`nx.connected_component_subgraphs` (not part of src/). -/
def connected_component_subgraphs (g : Graph) : List CompView :=
  g.componentViews

/-- Modelled from the spec: the external collaborator
`nx.weakly_connected_component_subgraphs` (not part of src/): the weakly
connected components of a directed graph are the connected components of
its underlying undirected structure. -/
def weakly_connected_component_subgraphs (g : Graph) : List CompView :=
  g.componentViews

/-- Modelled from the spec: `G.in_degree()[v]` (graph-class method, not
part of src/): the number of edges terminating at node `v` (self-loops and
parallel edges each count). -/
def Graph.in_degree (g : Graph) (v : Nat) : Nat :=
  (g.edges.filter fun e => e.2 == v).length

/-- The values of the dict `G.in_degree()`: one entry per node of `g`. -/
def Graph.in_degree_values (g : Graph) : List Nat :=
  (List.range g.numNodes).map g.in_degree

/-- Python's builtin `max` on a list of naturals: it fails (here `none`)
on an empty list. -/
def pymax : List Nat → Option Nat
  | [] => none
  | x :: xs => some (List.foldr max 0 (x :: xs))

/-- The maximum in-degree over all nodes (`0` for the empty graph); used
to state the claims about `is_branching`/`is_arborescence`. -/
def Graph.maxInDegree (g : Graph) : Nat :=
  g.in_degree_values.foldr max 0

/-- The exceptions the source can raise: `NetworkXPointlessConcept`
(zero-node graph), `NetworkXNotImplemented` (the
`not_implemented_for('undirected')` decorator), and Python's `ValueError`
(`max` of an empty collection). -/
inductive NXError where
  | pointlessConcept
  | notImplemented
  | valueError
deriving DecidableEq, Repr

/-- Source `is_forest(G)`: raise on a zero-node graph, pick the component
decomposition of the underlying undirected structure, and return true iff
no component fails the edge-count test `edges = nodes - 1`. -/
def is_forest (g : Graph) : Except NXError Bool :=
  let n := g.number_of_nodes
  if n = 0 then .error .pointlessConcept
  else
    let components :=
      if g.directed then weakly_connected_component_subgraphs g
      else connected_component_subgraphs g
    .ok (components.all fun c => c.edgeCount == c.nodeCount - 1)

/-- Source `is_tree(G)`: raise on a zero-node graph, pick the connectivity
test, return false when the global edge count differs from `n - 1`, and
otherwise return the connectivity test's answer. -/
def is_tree (g : Graph) : Except NXError Bool :=
  let n := g.number_of_nodes
  if n = 0 then .error .pointlessConcept
  else
    let isConn := if g.directed then nx_is_weakly_connected else nx_is_connected
    if g.number_of_edges ≠ n - 1 then .ok false
    else .ok (isConn g)

/-- Source `is_arborescence(G)`: the `not_implemented_for('undirected')`
decorator rejects undirected graphs before the body runs; the body returns
false when `is_tree` does, and otherwise tests `max(G.in_degree().values()) > 1`. -/
def is_arborescence (g : Graph) : Except NXError Bool :=
  if g.directed = false then .error .notImplemented
  else
    match is_tree g with
    | .error e => .error e
    | .ok t =>
        if t = false then .ok false
        else
          match pymax g.in_degree_values with
          | none => .error .valueError
          | some m => if 1 < m then .ok false else .ok true

/-- Source `is_branching(G)`: the `not_implemented_for('undirected')`
decorator rejects undirected graphs before the body runs; the body returns
false when `is_forest` does, and otherwise tests `max(G.in_degree().values()) > 1`. -/
def is_branching (g : Graph) : Except NXError Bool :=
  if g.directed = false then .error .notImplemented
  else
    match is_forest g with
    | .error e => .error e
    | .ok f =>
        if f = false then .ok false
        else
          match pymax g.in_degree_values with
          | none => .error .valueError
          | some m => if 1 < m then .ok false else .ok true

/-! Helper lemmas. -/

theorem reachK_refl (g : Graph) (k u : Nat) : g.reachK k u u = true := by
  cases k <;> simp [Graph.reachK]

theorem is_forest_ok (g : Graph) (h : g.numNodes ≠ 0) :
    is_forest g =
      .ok (g.componentViews.all fun c => c.edgeCount == c.nodeCount - 1) := by
  unfold is_forest weakly_connected_component_subgraphs connected_component_subgraphs
    Graph.number_of_nodes
  simp [h]

theorem is_tree_ok (g : Graph) (h : g.numNodes ≠ 0) :
    is_tree g =
      if g.edges.length ≠ g.numNodes - 1 then .ok false
      else .ok (nx_is_connected g) := by
  unfold is_tree nx_is_weakly_connected Graph.number_of_nodes Graph.number_of_edges
  simp only [h, if_false, ite_self]

theorem nx_is_connected_iff (g : Graph) :
    nx_is_connected g = true ↔
      ∀ u < g.numNodes, ∀ v < g.numNodes, g.reachableB u v = true := by
  simp [nx_is_connected, List.all_eq_true, List.mem_range]

theorem compOf_of_connected (g : Graph) (hc : nx_is_connected g = true)
    (u : Nat) (hu : u < g.numNodes) : g.compOf u = List.range g.numNodes := by
  unfold Graph.compOf
  apply List.filter_eq_self.mpr
  intro v hv
  exact (nx_is_connected_iff g).mp hc u hu v (List.mem_range.mp hv)

theorem range_head (m : Nat) : (List.range (m + 1)).head? = some 0 := by
  rw [List.range_succ_eq_map]
  rfl

theorem filter_range_eq_zero (m : Nat) :
    ((List.range (m + 1)).filter fun u => decide (0 = u)) = [0] := by
  induction m with
  | zero => rfl
  | succ k ih =>
      rw [List.range_succ, List.filter_append, ih]
      simp

theorem reps_of_connected (g : Graph) (h : g.numNodes ≠ 0)
    (hc : nx_is_connected g = true) : g.reps = [0] := by
  obtain ⟨m, hm⟩ : ∃ m, g.numNodes = m + 1 :=
    ⟨g.numNodes - 1, (Nat.succ_pred_eq_of_ne_zero h).symm⟩
  unfold Graph.reps
  have hcg : ∀ u ∈ List.range g.numNodes,
      (decide ((g.compOf u).head? = some u)) = (decide (0 = u)) := by
    intro u hu
    rw [compOf_of_connected g hc u (List.mem_range.mp hu), hm, range_head]
    simp
  rw [List.filter_congr hcg, hm, filter_range_eq_zero]

theorem edgesIn_range (g : Graph) (hw : g.WF) :
    g.edgesIn (List.range g.numNodes) = g.edges := by
  unfold Graph.edgesIn
  apply List.filter_eq_self.mpr
  intro e he
  have h2 := hw e he
  simp [List.mem_range, h2.1, h2.2]

theorem componentViews_of_connected (g : Graph) (hw : g.WF)
    (h : g.numNodes ≠ 0) (hc : nx_is_connected g = true) :
    g.componentViews = [⟨g.numNodes, g.edges.length⟩] := by
  unfold Graph.componentViews
  rw [reps_of_connected g h hc]
  simp only [List.map_cons, List.map_nil]
  rw [compOf_of_connected g hc 0 (Nat.pos_of_ne_zero h), edgesIn_range g hw]
  simp

theorem pymax_eq_foldr (l : List Nat) (h : l ≠ []) :
    pymax l = some (l.foldr max 0) := by
  cases l with
  | nil => exact absurd rfl h
  | cons x xs => rfl

theorem in_degree_values_ne_nil (g : Graph) (h : g.numNodes ≠ 0) :
    g.in_degree_values ≠ [] := by
  simp [Graph.in_degree_values, List.map_eq_nil_iff, List.range_eq_nil, h]

theorem pymax_in_degree_values (g : Graph) (h : g.numNodes ≠ 0) :
    pymax g.in_degree_values = some g.maxInDegree :=
  pymax_eq_foldr _ (in_degree_values_ne_nil g h)

theorem is_tree_okB (g : Graph) (h : g.numNodes ≠ 0) :
    is_tree g = .ok ((g.edges.length == g.numNodes - 1) && nx_is_connected g) := by
  rw [is_tree_ok g h]
  by_cases he : g.edges.length = g.numNodes - 1 <;> simp [he]

theorem is_forest_error (g : Graph) (e : NXError) (h : is_forest g = .error e) :
    e = .pointlessConcept ∧ g.numNodes = 0 := by
  by_cases hn : g.numNodes = 0
  · unfold is_forest Graph.number_of_nodes at h
    simp only [hn, if_pos] at h
    exact ⟨(Except.error.inj h).symm, hn⟩
  · rw [is_forest_ok g hn] at h
    cases h

theorem is_tree_error (g : Graph) (e : NXError) (h : is_tree g = .error e) :
    e = .pointlessConcept ∧ g.numNodes = 0 := by
  by_cases hn : g.numNodes = 0
  · unfold is_tree Graph.number_of_nodes at h
    simp only [hn, if_pos] at h
    exact ⟨(Except.error.inj h).symm, hn⟩
  · rw [is_tree_okB g hn] at h
    cases h

/-! Claim theorems. -/

/-- C1: for every non-empty graph `G`, `is_tree G` returns true iff `G`
has exactly `n - 1` edges (`n` the node count) and `G` is connected
(weakly connected when `G` is directed). -/
theorem C1_is_tree_iff (g : Graph) (h : 1 ≤ g.numNodes) :
    is_tree g = .ok true ↔
      (g.edges.length = g.numNodes - 1 ∧
        (if g.directed then nx_is_weakly_connected g else nx_is_connected g) = true) := by
  have h0 : g.numNodes ≠ 0 := Nat.pos_iff_ne_zero.mp h
  have hcon :
      (if g.directed then nx_is_weakly_connected g else nx_is_connected g) =
        nx_is_connected g := by
    cases g.directed <;> rfl
  rw [is_tree_okB g h0, hcon]
  by_cases he : g.edges.length = g.numNodes - 1 <;> simp [he]

/-- Witness for C1 on the undirected path with 3 nodes. -/
theorem C1_witness :
    is_tree (Graph.mk 3 [(0, 1), (1, 2)] false) = .ok true :=
  (C1_is_tree_iff (Graph.mk 3 [(0, 1), (1, 2)] false) (by decide)).mpr (by decide)

/-- C2: for every non-empty graph `G`, `is_forest G` returns true iff every
connected component of the underlying undirected structure (weakly
connected component when `G` is directed) has edge count equal to its node
count minus 1. -/
theorem C2_is_forest_iff (g : Graph) (h : 1 ≤ g.numNodes) :
    is_forest g = .ok true ↔
      ∀ c ∈ g.componentViews, c.edgeCount = c.nodeCount - 1 := by
  rw [is_forest_ok g (Nat.pos_iff_ne_zero.mp h)]
  simp [List.all_eq_true]

/-- Witness for C2 on a two-component undirected forest. -/
theorem C2_witness :
    is_forest (Graph.mk 4 [(0, 1), (2, 3)] false) = .ok true :=
  (C2_is_forest_iff (Graph.mk 4 [(0, 1), (2, 3)] false) (by decide)).mpr (by decide)

/-- C3 counterexample: on the undirected zero-node graph, `is_branching`
raises the unsupported-operation error, not `PointlessConcept`, refuting
the claim that every one of the four predicates raises `PointlessConcept`
on zero-node input of either directedness. -/
theorem C3_counterexample :
    is_branching (Graph.mk 0 [] false) = .error .notImplemented ∧
      is_branching (Graph.mk 0 [] false) ≠ .error .pointlessConcept := by
  constructor
  · rfl
  · intro hco
    rw [show is_branching (Graph.mk 0 [] false) = .error .notImplemented from rfl] at hco
    exact NXError.noConfusion (Except.error.inj hco)

/-- C3 amended: on a zero-node graph, `is_forest` and `is_tree` raise
`PointlessConcept` for both directednesses; `is_branching` and
`is_arborescence` raise `PointlessConcept` when the graph is directed, but
raise the unsupported-operation error when it is undirected. -/
theorem C3_amended (g : Graph) (h : g.numNodes = 0) :
    is_forest g = .error .pointlessConcept ∧
    is_tree g = .error .pointlessConcept ∧
    (g.directed = true →
      is_branching g = .error .pointlessConcept ∧
      is_arborescence g = .error .pointlessConcept) ∧
    (g.directed = false →
      is_branching g = .error .notImplemented ∧
      is_arborescence g = .error .notImplemented) := by
  have hf : is_forest g = .error .pointlessConcept := by
    unfold is_forest Graph.number_of_nodes
    simp [h]
  have ht : is_tree g = .error .pointlessConcept := by
    unfold is_tree Graph.number_of_nodes
    simp [h]
  refine ⟨hf, ht, ?_, ?_⟩
  · intro hd
    unfold is_branching is_arborescence
    rw [hd, hf, ht]
    simp
  · intro hd
    unfold is_branching is_arborescence
    rw [hd]
    simp

/-- Witness for C3's amended claim on the directed zero-node graph. -/
theorem C3_amended_witness :
    is_forest (Graph.mk 0 [] true) = .error .pointlessConcept ∧
    is_tree (Graph.mk 0 [] true) = .error .pointlessConcept ∧
    ((Graph.mk 0 [] true).directed = true →
      is_branching (Graph.mk 0 [] true) = .error .pointlessConcept ∧
      is_arborescence (Graph.mk 0 [] true) = .error .pointlessConcept) ∧
    ((Graph.mk 0 [] true).directed = false →
      is_branching (Graph.mk 0 [] true) = .error .notImplemented ∧
      is_arborescence (Graph.mk 0 [] true) = .error .notImplemented) :=
  C3_amended (Graph.mk 0 [] true) rfl

/-- C6: on every undirected graph, of any node count, `is_branching` and
`is_arborescence` raise the unsupported-operation error rather than
returning a boolean. -/
theorem C6_undirected_rejected (g : Graph) (hd : g.directed = false) :
    is_branching g = .error .notImplemented ∧
      is_arborescence g = .error .notImplemented := by
  unfold is_branching is_arborescence
  rw [hd]
  simp

/-- Witness for C6 on a non-empty undirected graph. -/
theorem C6_witness :
    is_branching (Graph.mk 2 [(0, 1)] false) = .error .notImplemented ∧
      is_arborescence (Graph.mk 2 [(0, 1)] false) = .error .notImplemented :=
  C6_undirected_rejected (Graph.mk 2 [(0, 1)] false) rfl

/-- C10: on the undirected zero-node graph, `is_branching` and
`is_arborescence` raise the unsupported-operation error and not
`PointlessConcept`: the directedness guard runs before the node-count
check. -/
theorem C10_guard_before_node_check (g : Graph) (hd : g.directed = false)
    (_hn : g.numNodes = 0) :
    is_branching g = .error .notImplemented ∧
      is_arborescence g = .error .notImplemented ∧
      is_branching g ≠ .error .pointlessConcept ∧
      is_arborescence g ≠ .error .pointlessConcept := by
  have hb : is_branching g = .error .notImplemented := by
    unfold is_branching
    rw [hd]
    simp
  have ha : is_arborescence g = .error .notImplemented := by
    unfold is_arborescence
    rw [hd]
    simp
  refine ⟨hb, ha, ?_, ?_⟩
  · rw [hb]
    intro hco
    exact NXError.noConfusion (Except.error.inj hco)
  · rw [ha]
    intro hco
    exact NXError.noConfusion (Except.error.inj hco)

/-- Witness for C10 on the undirected zero-node graph. -/
theorem C10_witness :
    is_branching (Graph.mk 0 [] false) = .error .notImplemented ∧
      is_arborescence (Graph.mk 0 [] false) = .error .notImplemented ∧
      is_branching (Graph.mk 0 [] false) ≠ .error .pointlessConcept ∧
      is_arborescence (Graph.mk 0 [] false) ≠ .error .pointlessConcept :=
  C10_guard_before_node_check (Graph.mk 0 [] false) rfl rfl

/-- C4: for every non-empty directed graph, `is_branching` returns true
iff `is_forest` returns true and the maximum in-degree is at most 1; and
when `is_forest` returns false, `is_branching` returns false. -/
theorem C4_is_branching_iff (g : Graph) (hd : g.directed = true)
    (h : 1 ≤ g.numNodes) :
    (is_branching g = .ok true ↔
      (is_forest g = .ok true ∧ g.maxInDegree ≤ 1)) ∧
    (is_forest g = .ok false → is_branching g = .ok false) := by
  have h0 : g.numNodes ≠ 0 := Nat.pos_iff_ne_zero.mp h
  have hpm := pymax_in_degree_values g h0
  unfold is_branching
  rw [hd, is_forest_ok g h0]
  cases hfb : (g.componentViews.all fun c => c.edgeCount == c.nodeCount - 1) with
  | false => simp
  | true =>
      rw [hpm]
      by_cases h1 : 1 < g.maxInDegree
      · simp [h1, Nat.lt_iff_add_one_le, Nat.not_le_of_lt h1]
      · simp [h1, Nat.le_of_not_lt h1]

/-- Witness for C4 on the directed two-node path. -/
theorem C4_witness :
    (is_branching (Graph.mk 2 [(0, 1)] true) = .ok true ↔
      (is_forest (Graph.mk 2 [(0, 1)] true) = .ok true ∧
        (Graph.mk 2 [(0, 1)] true).maxInDegree ≤ 1)) ∧
    (is_forest (Graph.mk 2 [(0, 1)] true) = .ok false →
      is_branching (Graph.mk 2 [(0, 1)] true) = .ok false) :=
  C4_is_branching_iff (Graph.mk 2 [(0, 1)] true) rfl (by decide)

/-- C5: for every non-empty directed graph, `is_arborescence` returns true
iff `is_tree` returns true and the maximum in-degree is at most 1; and
when `is_tree` returns false, `is_arborescence` returns false. -/
theorem C5_is_arborescence_iff (g : Graph) (hd : g.directed = true)
    (h : 1 ≤ g.numNodes) :
    (is_arborescence g = .ok true ↔
      (is_tree g = .ok true ∧ g.maxInDegree ≤ 1)) ∧
    (is_tree g = .ok false → is_arborescence g = .ok false) := by
  have h0 : g.numNodes ≠ 0 := Nat.pos_iff_ne_zero.mp h
  have hpm := pymax_in_degree_values g h0
  unfold is_arborescence
  rw [hd, is_tree_okB g h0]
  cases htb : ((g.edges.length == g.numNodes - 1) && nx_is_connected g) with
  | false => simp
  | true =>
      rw [hpm]
      by_cases h1 : 1 < g.maxInDegree
      · simp [h1, Nat.not_le_of_lt h1]
      · simp [h1, Nat.le_of_not_lt h1]

/-- Witness for C5 on the directed two-node path. -/
theorem C5_witness :
    (is_arborescence (Graph.mk 2 [(0, 1)] true) = .ok true ↔
      (is_tree (Graph.mk 2 [(0, 1)] true) = .ok true ∧
        (Graph.mk 2 [(0, 1)] true).maxInDegree ≤ 1)) ∧
    (is_tree (Graph.mk 2 [(0, 1)] true) = .ok false →
      is_arborescence (Graph.mk 2 [(0, 1)] true) = .ok false) :=
  C5_is_arborescence_iff (Graph.mk 2 [(0, 1)] true) rfl (by decide)

/-- C7: for every non-empty wellformed graph, if `is_tree` returns true
then `is_forest` returns true. -/
theorem C7_tree_implies_forest (g : Graph) (hw : g.WF)
    (ht : is_tree g = .ok true) : is_forest g = .ok true := by
  have h0 : g.numNodes ≠ 0 := by
    intro hn0
    unfold is_tree Graph.number_of_nodes at ht
    simp [hn0] at ht
  rw [is_tree_okB g h0] at ht
  have ht2 : (g.edges.length == g.numNodes - 1) = true ∧
      nx_is_connected g = true := by
    have := Except.ok.inj ht
    simpa [Bool.and_eq_true] using this
  have he : g.edges.length = g.numNodes - 1 := by
    simpa using ht2.1
  rw [is_forest_ok g h0, componentViews_of_connected g hw h0 ht2.2]
  simp [he]

/-- Witness for C7 on the undirected path with 3 nodes. -/
theorem C7_witness :
    is_forest (Graph.mk 3 [(0, 1), (1, 2)] false) = .ok true :=
  C7_tree_implies_forest (Graph.mk 3 [(0, 1), (1, 2)] false) (by decide) (by rfl)

/-- C8: for every non-empty wellformed graph that is connected (weakly
connected when directed), `is_tree` and `is_forest` return the same
result: on connected inputs the global edge-count test and the
per-component edge-count test coincide. -/
theorem C8_connected_tree_eq_forest (g : Graph) (hw : g.WF)
    (h : 1 ≤ g.numNodes)
    (hc : (if g.directed then nx_is_weakly_connected g else nx_is_connected g) = true) :
    is_tree g = is_forest g := by
  have h0 : g.numNodes ≠ 0 := Nat.pos_iff_ne_zero.mp h
  have hcc : nx_is_connected g = true := by
    cases hdir : g.directed
    · rw [hdir] at hc
      simpa using hc
    · rw [hdir] at hc
      simpa [nx_is_weakly_connected] using hc
  rw [is_tree_okB g h0, is_forest_ok g h0,
    componentViews_of_connected g hw h0 hcc]
  simp [hcc]

/-- Witness for C8 on the directed two-node path. -/
theorem C8_witness :
    is_tree (Graph.mk 2 [(0, 1)] true) = is_forest (Graph.mk 2 [(0, 1)] true) :=
  C8_connected_tree_eq_forest (Graph.mk 2 [(0, 1)] true) (by decide) (by decide)
    (by rfl)

/-- C9: the `max` over the in-degree values in `is_branching` and
`is_arborescence` is only reached when the forest/tree test succeeded,
which forces at least one node, so the collection is non-empty and the
`max` computation never fails: neither predicate ever produces the
empty-`max` `ValueError`. -/
theorem C9_max_never_fails (g : Graph) :
    is_branching g ≠ .error .valueError ∧
      is_arborescence g ≠ .error .valueError := by
  constructor
  · unfold is_branching
    split
    · simp
    · cases hfr : is_forest g with
      | error e =>
          have h2 := is_forest_error g e hfr
          rw [h2.1]
          simp
      | ok f =>
          cases f
          · simp
          · have hn : g.numNodes ≠ 0 := by
              intro hn0
              unfold is_forest Graph.number_of_nodes at hfr
              simp [hn0] at hfr
            rw [pymax_in_degree_values g hn]
            by_cases h1 : 1 < g.maxInDegree <;> simp [h1]
  · unfold is_arborescence
    split
    · simp
    · cases htr : is_tree g with
      | error e =>
          have h2 := is_tree_error g e htr
          rw [h2.1]
          simp
      | ok t =>
          cases t
          · simp
          · have hn : g.numNodes ≠ 0 := by
              intro hn0
              unfold is_tree Graph.number_of_nodes at htr
              simp [hn0] at htr
            rw [pymax_in_degree_values g hn]
            by_cases h1 : 1 < g.maxInDegree <;> simp [h1]
